import Mathlib

/-!
Shallow embedding of the concentric-ring compositing and cache-invalidation
engine of the cinetiser tool (p5.js application).

Sources embedded here:
  * `src/modules/render-engine.js`  — `RenderEngine.renderCutSlices`,
    `RenderEngine.renderCutSlicesToBuffer`, `RenderEngine._calculateRotation`.
  * `src/modules/utils.js` (second module in file) — `CacheManager.needsCacheUpdate`
    and the per-slot cache state it reads.
  * `src/modules/cut-manager.js` — `CutManager.placeCutInSlot`,
    `CutManager.selectCutSlot`, `CutManager.clearCutSlot`, `CutManager.updateCutsArray`.
  * `src/sketch.js` — the per-frame draw logic: transition-duration formula
    (lines 789-792), rotation-progress computation (794-805), per-cut size
    clamping (824-839), the inactive-cut cache branch (874-916), and
    `selectCutSlot` (1510-1540).
  * `src/unnamed/part_000` — `calculateMinZoom`.

Numbers that the JavaScript code treats as plain user-supplied parameters are
modelled as rationals (ℚ); values produced by the trigonometric rotation
formulas are real (ℝ).  `Math.sin` is `Real.sin`, `Math.PI` is `Real.pi`,
p5's `radians(d)` is `d * (π / 180)`.
-/

set_option maxHeartbeats 1600000

namespace Cinetiser

/-- The rotation method string of the parameter snapshot, as a closed variant:
`cutParams.rotationMethod` is either `"incremental"` or `"wave"` (the code
defaults a missing value to `"incremental"` before use). -/
inductive RotationMethod where
  | incremental
  | wave
deriving DecidableEq, Repr

/-- p5's `radians(deg)`: degrees to radians. -/
noncomputable def radians (d : ℝ) : ℝ := d * (Real.pi / 180)

/-- p5's `map(value, start1, stop1, start2, stop2)` (see also `Utils.map` in
`src/modules/utils.js`). -/
noncomputable def p5map (value start1 stop1 start2 stop2 : ℝ) : ℝ :=
  start2 + (stop2 - start2) * ((value - start1) / (stop1 - start1))

/-- `RenderEngine._calculateRotation` (src/modules/render-engine.js lines
210-247).  `sliceIndex` and `totalSlices` are the loop index and ring count;
`lerpedRotationAmount` is `rotationAmount * rotationProgress` as computed by
the caller; `frameCount` is p5's frame counter `this.p.frameCount`. -/
noncomputable def calculateRotation (sliceIndex totalSlices : ℕ)
    (lerpedRotationAmount rotationSpeed : ℝ) (isAnimated : Bool)
    (rotationMethod : RotationMethod) (frameCount : ℕ) : ℝ :=
  if isAnimated then
    let animatedValue := p5map (Real.sin (frameCount * rotationSpeed)) (-1) 1
      (-lerpedRotationAmount) lerpedRotationAmount
    match rotationMethod with
    | .wave =>
        let waveFrequency : ℝ := 3
        let phaseOffset := ((sliceIndex : ℝ) / totalSlices) * Real.pi * 2 * waveFrequency
        let waveAmount := lerpedRotationAmount *
          Real.sin (frameCount * rotationSpeed + phaseOffset)
        radians waveAmount
    | .incremental => radians (animatedValue * sliceIndex)
  else
    match rotationMethod with
    | .wave =>
        let waveFrequency : ℝ := 3
        let phaseOffset := ((sliceIndex : ℝ) / totalSlices) * Real.pi * 2 * waveFrequency
        let waveAmount := lerpedRotationAmount * Real.sin phaseOffset
        radians waveAmount
    | .incremental => radians (lerpedRotationAmount * sliceIndex)

/-- The inputs of one call to `RenderEngine.renderCutSlices` /
`RenderEngine.renderCutSlicesToBuffer`, together with the ambient dimensions
the loop body reads (`this.p.width/height`, `imgLayer.width/height`,
`patternImg.width/height`). -/
structure RenderInputs where
  pWidth : ℚ
  pHeight : ℚ
  imgLayerW : ℚ
  imgLayerH : ℚ
  patternW : ℚ
  patternH : ℚ
  centerX : ℚ
  centerY : ℚ
  maxDiameter : ℚ
  sliceAmount : ℕ
  cutSize : ℚ
  rotationAmount : ℚ
  rotationSpeed : ℚ
  isAnimated : Bool
  rotationProgress : ℚ
  rotationMethod : RotationMethod

/-- One ring's composited draw operation: everything the loop body of
`renderCutSlices` / `renderCutSlicesToBuffer` computes for ring `i` before
drawing — its size, rotation, source-sample rectangle and buffer dimensions.
Two runs that produce the same list of `RingOp`s draw pixel-identical
output (the remaining drawing calls are deterministic in these values). -/
structure RingOp where
  size : ℚ
  rotation : ℝ
  sw : ℤ
  sh : ℤ
  bufferW : ℤ
  bufferH : ℤ
  sx : ℚ
  sy : ℚ

/-- The loop body shared by `renderCutSlices` (lines 35-101) and
`renderCutSlicesToBuffer` (lines 137-203): the computation for ring `i`. -/
noncomputable def ringOp (inp : RenderInputs) (frameCount : ℕ) (i : ℕ) : RingOp :=
  let ringThickness : ℚ := inp.cutSize / inp.sliceAmount
  let currentSize : ℚ := inp.maxDiameter - i * ringThickness
  let lerpedRotationAmount : ℚ := inp.rotationAmount * inp.rotationProgress
  let currentRotation : ℝ := calculateRotation i inp.sliceAmount
    (lerpedRotationAmount : ℝ) (inp.rotationSpeed : ℝ) inp.isAnimated
    inp.rotationMethod frameCount
  let sw : ℤ := max 1 ⌈currentSize⌉
  let sh : ℤ := max 1 ⌈currentSize⌉
  let bufferScale : ℚ := 2
  let bufferW : ℤ := ⌈(sw : ℚ) * bufferScale⌉
  let bufferH : ℤ := ⌈(sh : ℚ) * bufferScale⌉
  let localCenterX : ℚ := inp.centerX - (inp.pWidth / 2 - inp.imgLayerW / 2)
  let localCenterY : ℚ := inp.centerY - (inp.pHeight / 2 - inp.imgLayerH / 2)
  let sx : ℚ := max 0 (min (inp.patternW - sw) (localCenterX - sw / 2))
  let sy : ℚ := max 0 (min (inp.patternH - sh) (localCenterY - sh / 2))
  { size := currentSize, rotation := currentRotation, sw := sw, sh := sh,
    bufferW := bufferW, bufferH := bufferH, sx := sx, sy := sy }

/-- `RenderEngine.renderCutSlices` (render-engine.js lines 15-104), abstracted
to the sequence of ring draw operations it composites onto the display layer:
`if (rotationAmount === 0) return;` short-circuits before the loop, otherwise
rings `i = 0, …, sliceAmount-1` are drawn in ascending order. -/
noncomputable def renderCutSlices (inp : RenderInputs) (frameCount : ℕ) :
    List RingOp :=
  if inp.rotationAmount = 0 then []
  else (List.range inp.sliceAmount).map (ringOp inp frameCount)

/-- `RenderEngine.renderCutSlicesToBuffer` (render-engine.js lines 109-204),
abstracted to the content of the slot's cache raster after the call: the
raster is cleared (`cachedLayer.clear()`), then — unless
`rotationAmount === 0` returns early — the same ring loop draws onto it.
The empty list is the cleared/background state. -/
noncomputable def renderCutSlicesToBuffer (inp : RenderInputs) (frameCount : ℕ) :
    List RingOp :=
  if inp.rotationAmount = 0 then []
  else (List.range inp.sliceAmount).map (ringOp inp frameCount)

/-- The cache key built in the inactive-cut branch of `p.draw`
(src/sketch.js lines 875-885) and compared by
`CacheManager.needsCacheUpdate`: the per-slot parameter fingerprint. -/
structure Fingerprint where
  centerX : ℚ
  centerY : ℚ
  maxDiameter : ℚ
  cutSliceAmount : ℕ
  cutSize : ℚ
  rotationAmount : ℚ
  rotationSpeed : ℚ
  animated : Bool
  rotationMethod : RotationMethod
deriving DecidableEq, Repr

/-- "The stored fingerprint differs from the fresh one in at least one
field" — the field-wise reading of staleness from the spec. -/
def fingerprintDiffers (f g : Fingerprint) : Prop :=
  f.centerX ≠ g.centerX ∨ f.centerY ≠ g.centerY ∨
  f.maxDiameter ≠ g.maxDiameter ∨ f.cutSliceAmount ≠ g.cutSliceAmount ∨
  f.cutSize ≠ g.cutSize ∨ f.rotationAmount ≠ g.rotationAmount ∨
  f.rotationSpeed ≠ g.rotationSpeed ∨ f.animated ≠ g.animated ∨
  f.rotationMethod ≠ g.rotationMethod

instance : DecidablePred fun p : Fingerprint × Fingerprint =>
    fingerprintDiffers p.1 p.2 := by
  intro p
  unfold fingerprintDiffers
  infer_instance

/-- One slot of the cache manager: `cutCaches[slotIndex]` (the cached raster,
`null` when absent) and `cutCacheParams[slotIndex]` (the stored fingerprint,
`null` when absent).  The raster content type is a parameter `ρ`; the engine
instantiates it with a list of ring draw operations. -/
structure SlotCache (ρ : Type) where
  raster : Option ρ
  fp : Option Fingerprint

/-- `CacheManager.needsCacheUpdate` (second module of src/modules/utils.js,
lines 222-229), also inlined in `p.draw` (src/sketch.js lines 887-891):
`!cutCaches[slot] || !cutCacheParams[slot] ||
 JSON.stringify(cutCacheParams[slot]) !== JSON.stringify(cacheKey)`.
Both objects are built by the same code path with the same key order, so
`JSON.stringify` inequality is structural inequality of the fingerprints. -/
def needsCacheUpdate {ρ : Type} (st : SlotCache ρ) (cacheKey : Fingerprint) :
    Bool :=
  st.raster.isNone || st.fp.isNone ||
    (match st.fp with
     | none => true
     | some stored => decide (stored ≠ cacheKey))

/-- The inactive-cut cache branch of `p.draw` (src/sketch.js lines 887-910):
if the cache is stale, invoke `renderCutSlicesToBuffer` (producing raster
content `render`) and store the fresh fingerprint; otherwise leave the slot
untouched.  The returned `Bool` records whether the Ring Compositor was
invoked. -/
def inactiveCutStep {ρ : Type} (st : SlotCache ρ) (cacheKey : Fingerprint)
    (render : ρ) : SlotCache ρ × Bool :=
  if needsCacheUpdate st cacheKey then
    ({ raster := some render, fp := some cacheKey }, true)
  else (st, false)

/-- JavaScript's `a || b` for a numeric `a` with a numeric default `b`:
`a` is falsy exactly when it is `0` (`NaN` is not representable here). -/
def jsOr (v default : ℚ) : ℚ := if v = 0 then default else v

/-- Per-cut effective size computation from `p.draw` (src/sketch.js lines
824-839): `cutSize = Math.max(1, cutParams.cutSize || 300)`, then clamped
down to `Math.min(zoomedImageWidth, zoomedImageHeight)` when it exceeds it
(the `if (loadedImage)` guard always holds on this code path — the branch
dereferences `loadedImage` unconditionally a few lines above). -/
def effectiveCutSize (requested zoomedImageWidth zoomedImageHeight : ℚ) : ℚ :=
  let cutSize := max 1 (jsOr requested 300)
  let maxAllowedDiameter := min zoomedImageWidth zoomedImageHeight
  if maxAllowedDiameter < cutSize then maxAllowedDiameter else cutSize

/-- Per-cut effective ring count from `p.draw` (src/sketch.js lines 825-828):
`Math.max(1, Math.floor(cutParams.sliceAmount || 10))`. -/
def effectiveSliceAmount (requested : ℚ) : ℤ :=
  max 1 ⌊jsOr requested 10⌋

/-- The transition-duration formula recomputed each frame in `p.draw`
(src/sketch.js lines 789-792):
`cycleDuration = ((Math.PI * 2) / Math.max(rotationSpeed, 0.0001) / frameRate) * 1000`
with `frameRate = 60`, and
`rotationTransitionDuration = Math.max(500, cycleDuration * 0.05)`. -/
noncomputable def rotationTransitionDurationOf (rotationSpeed : ℝ) : ℝ :=
  let frameRate : ℝ := 60
  let cycleDuration := Real.pi * 2 / max rotationSpeed 0.0001 / frameRate * 1000
  max 500 (cycleDuration * 0.05)

/-- The rotation-progress computation of `p.draw` (src/sketch.js lines
794-805), as a function of the current `rotationTransitionStart`, the clock
reading `p.millis()` and `rotationTransitionDuration`.  Returns the progress
used this frame and the updated `rotationTransitionStart` (cleared to `null`
once progress reaches 1.0). -/
def computeRotationProgress (start : Option ℚ) (now duration : ℚ) :
    ℚ × Option ℚ :=
  match start with
  | none => (1, none)
  | some s =>
      let elapsed := now - s
      let progress := min (elapsed / duration) 1
      (progress, if 1 ≤ progress then none else some s)

/-- The transition-relevant state read and written by `selectCutSlot` in
src/sketch.js: the selected slot index and the transition start time. -/
structure TransitionState where
  selectedCutSlot : ℤ
  rotationTransitionStart : Option ℚ
deriving DecidableEq

/-- `selectCutSlot` in src/sketch.js (lines 1510-1540), projected onto the
transition-relevant state: inside the `0 ≤ slotIndex < 6` guard, the
transition start time is set to `p.millis()` only when switching to a
different slot, and the selection is updated.  (The function also resets
various last-seen caches and, on a change, nulls the new slot's cache entry;
those fields are not part of this state.) -/
def selectCutSlotTransition (st : TransitionState) (slotIndex : ℤ) (now : ℚ) :
    TransitionState :=
  if 0 ≤ slotIndex ∧ slotIndex < 6 then
    { selectedCutSlot := slotIndex,
      rotationTransitionStart :=
        if slotIndex ≠ st.selectedCutSlot then some now
        else st.rotationTransitionStart }
  else st

/-- A placed cut as stored in `cutSlots` by `CutManager.placeCutInSlot`. -/
structure Cut where
  centerX : ℚ
  centerY : ℚ
deriving DecidableEq, Repr

/-- An entry of the derived `cuts` array (`CutManager.updateCutsArray`):
the cut's position spread together with its `slotIndex`. -/
structure CutWithSlot where
  centerX : ℚ
  centerY : ℚ
  slotIndex : ℕ
deriving DecidableEq, Repr

/-- The state of `CutManager` (src/modules/cut-manager.js) that the slot
operations touch: the six-entry `cutSlots` array, the `selectedCutSlot`
index, and the derived `cuts` array. -/
structure CutManagerState where
  cutSlots : List (Option Cut)
  selectedCutSlot : ℤ
  cuts : List CutWithSlot
deriving DecidableEq

/-- `CutManager.updateCutsArray` (cut-manager.js lines 29-39): rebuild `cuts`
from the non-null entries of `cutSlots`, keeping slot order and recording
each entry's `slotIndex`. -/
def cutsOf (slots : List (Option Cut)) : List CutWithSlot :=
  slots.enum.filterMap fun p =>
    p.2.map fun c => { centerX := c.centerX, centerY := c.centerY, slotIndex := p.1 }

/-- `CutManager.placeCutInSlot` (cut-manager.js lines 15-27): rejects slot
indices outside `[0, 6)` with `false` and no mutation; otherwise stores the
position, selects the slot, rebuilds `cuts`, and returns `true`. -/
def placeCutInSlot (st : CutManagerState) (slotIndex : ℤ) (centerX centerY : ℚ) :
    Bool × CutManagerState :=
  if slotIndex < 0 ∨ 6 ≤ slotIndex then (false, st)
  else
    let slots := st.cutSlots.set slotIndex.toNat
      (some { centerX := centerX, centerY := centerY })
    (true,
     { cutSlots := slots, selectedCutSlot := slotIndex, cuts := cutsOf slots })

/-- `CutManager.selectCutSlot` (cut-manager.js lines 41-49): inside the
range guard, records whether the selection changed, updates it and returns
that flag; outside the guard returns `false` without mutation. -/
def selectCutSlot (st : CutManagerState) (slotIndex : ℤ) :
    Bool × CutManagerState :=
  if 0 ≤ slotIndex ∧ slotIndex < 6 then
    let wasChanged := slotIndex ≠ st.selectedCutSlot
    (wasChanged, { st with selectedCutSlot := slotIndex })
  else (false, st)

/-- `CutManager.clearCutSlot` (cut-manager.js lines 51-58): inside the range
guard, nulls the slot, rebuilds `cuts` and returns `true`; outside, returns
`false` without mutation. -/
def clearCutSlot (st : CutManagerState) (slotIndex : ℤ) :
    Bool × CutManagerState :=
  if 0 ≤ slotIndex ∧ slotIndex < 6 then
    let slots := st.cutSlots.set slotIndex.toNat none
    (true, { st with cutSlots := slots, cuts := cutsOf slots })
  else (false, st)

/-- `calculateMinZoom` (src/unnamed/part_000 lines 66-72): the body is
`return 1.0;` — every argument is ignored. -/
def calculateMinZoom (imgWidth imgHeight canvasWidth canvasHeight : ℚ) : ℚ :=
  1

/-- The render inputs of the spec's Scenario A: `sliceAmount = 10`,
`cutSize = 300`, `rotationAmount = 10`, incremental method, static
(`animated = false`), settled transition (`rotationProgress = 1`), on an
800×800 canvas.  Scenario B is the same with `rotationMethod := .wave`. -/
def scenarioInputs : RenderInputs :=
  { pWidth := 800, pHeight := 800, imgLayerW := 800, imgLayerH := 800,
    patternW := 800, patternH := 800, centerX := 400, centerY := 400,
    maxDiameter := 300, sliceAmount := 10, cutSize := 300,
    rotationAmount := 10, rotationSpeed := 1 / 100, isAnimated := false,
    rotationProgress := 1, rotationMethod := RotationMethod.incremental }

/-- A stored fingerprint differs from a fresh one in at least one field
exactly when the two fingerprints are unequal. -/
lemma fingerprintDiffers_iff_ne (f g : Fingerprint) :
    fingerprintDiffers f g ↔ f ≠ g := by
  cases f
  cases g
  simp only [fingerprintDiffers, ne_eq, Fingerprint.mk.injEq]
  tauto

/-- Unfolding of the static incremental branch of `_calculateRotation`. -/
lemma calculateRotation_static_incremental (i n : ℕ) (lerped speed : ℝ)
    (fc : ℕ) :
    calculateRotation i n lerped speed false RotationMethod.incremental fc
      = radians (lerped * i) := rfl

/-- Unfolding of the static wave branch of `_calculateRotation`. -/
lemma calculateRotation_static_wave (i n : ℕ) (lerped speed : ℝ) (fc : ℕ) :
    calculateRotation i n lerped speed false RotationMethod.wave fc
      = radians (lerped * Real.sin (((i : ℝ) / (n : ℝ)) * Real.pi * 2 * 3)) :=
  rfl

/-- With `isAnimated = false`, `_calculateRotation` never reads the frame
counter. -/
lemma calculateRotation_static_frameCount (i n : ℕ) (lerped speed : ℝ)
    (m : RotationMethod) (fc1 fc2 : ℕ) :
    calculateRotation i n lerped speed false m fc1
      = calculateRotation i n lerped speed false m fc2 := by
  cases m
  · rw [calculateRotation_static_incremental, calculateRotation_static_incremental]
  · rw [calculateRotation_static_wave, calculateRotation_static_wave]

/-- The rotation field of a ring draw operation is exactly
`_calculateRotation` applied to the loop's arguments. -/
lemma ringOp_rotation (inp : RenderInputs) (fc i : ℕ) :
    (ringOp inp fc i).rotation
      = calculateRotation i inp.sliceAmount
          ((inp.rotationAmount * inp.rotationProgress : ℚ) : ℝ)
          (inp.rotationSpeed : ℝ) inp.isAnimated inp.rotationMethod fc := rfl

/-- Two ring draw operations with the same inputs and equal rotations are
equal: only the `rotation` field can depend on the frame counter. -/
lemma ringOp_eq_of_rotation_eq (inp : RenderInputs) (fc1 fc2 i : ℕ)
    (h : (ringOp inp fc1 i).rotation = (ringOp inp fc2 i).rotation) :
    ringOp inp fc1 i = ringOp inp fc2 i := by
  simp only [ringOp] at h ⊢
  rw [h]

/-- C10: `calculateMinZoom` returns exactly `1.0` for all image and canvas
dimensions — the minimum cover-preserving zoom is a constant, independent of
every argument. -/
theorem calculateMinZoom_const (iw ih cw ch iw2 ih2 cw2 ch2 : ℚ) :
    calculateMinZoom iw ih cw ch = 1 ∧
    calculateMinZoom iw ih cw ch = calculateMinZoom iw2 ih2 cw2 ch2 :=
  ⟨rfl, rfl⟩

/-- C4: with `rotationAmount` exactly `0`, both compositor entry points
(`renderCutSlices`, the direct-to-display render, and
`renderCutSlicesToBuffer`, the render-to-cache) produce zero ring draw
operations: they return before entering the ring loop, so the target raster
keeps its cleared/background state. -/
theorem renderZeroRotationAmountRendersNothing (inp : RenderInputs)
    (frameCount : ℕ) :
    renderCutSlices { inp with rotationAmount := 0 } frameCount = [] ∧
    renderCutSlicesToBuffer { inp with rotationAmount := 0 } frameCount = [] := by
  constructor <;> simp [renderCutSlices, renderCutSlicesToBuffer]

/-- C9: two invocations of the Ring Compositor with an identical parameter
snapshot, identical center, `rotationProgress = 1` and `animated = false`
produce the same list of ring draw operations — hence pixel-identical
output — regardless of the frame counter: the static per-ring rotation
depends only on the snapshot, not on hidden mutable state. -/
theorem renderStaticFrameCountIndependent (inp : RenderInputs)
    (fc1 fc2 : ℕ) :
    renderCutSlicesToBuffer
        { inp with isAnimated := false, rotationProgress := 1 } fc1
      = renderCutSlicesToBuffer
        { inp with isAnimated := false, rotationProgress := 1 } fc2 ∧
    renderCutSlices { inp with isAnimated := false, rotationProgress := 1 } fc1
      = renderCutSlices
        { inp with isAnimated := false, rotationProgress := 1 } fc2 := by
  have hop : ∀ i : ℕ,
      ringOp { inp with isAnimated := false, rotationProgress := 1 } fc1 i
        = ringOp { inp with isAnimated := false, rotationProgress := 1 } fc2 i := by
    intro i
    refine ringOp_eq_of_rotation_eq _ fc1 fc2 i ?_
    rw [ringOp_rotation, ringOp_rotation]
    exact calculateRotation_static_frameCount i inp.sliceAmount _ _
      inp.rotationMethod fc1 fc2
  refine ⟨?_, ?_⟩ <;> simp only [renderCutSlicesToBuffer, renderCutSlices] <;> split
  · rfl
  · exact List.map_congr_left fun i _ => hop i
  · rfl
  · exact List.map_congr_left fun i _ => hop i

/-- C7: the transition duration recomputed each frame equals
`max(500, 0.05 × ((2π / max(rotationSpeed, 0.0001)) / 60) × 1000)`
milliseconds — roughly 5% of one full oscillation period, floored at
500 ms. -/
theorem rotationTransitionDuration_formula (rotationSpeed : ℝ) :
    rotationTransitionDurationOf rotationSpeed
      = max 500 (0.05 * (2 * Real.pi / max rotationSpeed 0.0001 / 60) * 1000) := by
  have h : ∀ x : ℝ, Real.pi * 2 / x / 60 * 1000 * 0.05
      = 0.05 * (2 * Real.pi / x / 60) * 1000 := fun x => by ring
  simp only [rotationTransitionDurationOf]
  rw [h]

/-- C2: with `animated = false` and the incremental method, ring `i`'s
rotation equals `radians(rotationAmount × rotationProgress × i)`; in
Scenario A (`sliceAmount = 10`, `cutSize = 300`, `rotationAmount = 10`,
`rotationProgress = 1`) ring 9 rotates `π/2` (90°) and ring 0 rotates 0. -/
theorem staticIncrementalRotation (inp : RenderInputs) (frameCount i : ℕ) :
    (ringOp { inp with isAnimated := false, rotationMethod := RotationMethod.incremental } frameCount i).rotation
      = radians ((inp.rotationAmount : ℝ) * (inp.rotationProgress : ℝ) * i) ∧
    (ringOp scenarioInputs 0 9).rotation = Real.pi / 2 ∧
    (ringOp scenarioInputs 0 0).rotation = 0 := by
  refine ⟨?_, ?_, ?_⟩
  · rw [ringOp_rotation, calculateRotation_static_incremental]
    unfold radians
    push_cast
    ring
  · have h : (ringOp scenarioInputs 0 9).rotation
        = radians (((10 * 1 : ℚ) : ℝ) * ((9 : ℕ) : ℝ)) := rfl
    rw [h]
    unfold radians
    push_cast
    ring
  · have h : (ringOp scenarioInputs 0 0).rotation
        = radians (((10 * 1 : ℚ) : ℝ) * ((0 : ℕ) : ℝ)) := rfl
    rw [h]
    unfold radians
    push_cast
    ring

/-- C3: with `animated = false` and the wave method, ring `i`'s rotation
equals `radians(rotationAmount × rotationProgress ×
sin((i / sliceAmount) × 2π × 3))` with the wave frequency fixed at 3; in
Scenario B (`sliceAmount = 10`, `rotationAmount = 10`,
`rotationProgress = 1`) ring 0's angle is 0 (`sin 0 = 0`) and ring 5's angle
is 0 (`sin (3π) = 0`). -/
theorem staticWaveRotation (inp : RenderInputs) (frameCount i : ℕ) :
    (ringOp { inp with isAnimated := false, rotationMethod := RotationMethod.wave } frameCount i).rotation
      = radians ((inp.rotationAmount : ℝ) * (inp.rotationProgress : ℝ) *
          Real.sin (((i : ℝ) / (inp.sliceAmount : ℝ)) * (2 * Real.pi) * 3)) ∧
    (ringOp { scenarioInputs with rotationMethod := RotationMethod.wave } 0 0).rotation = 0 ∧
    (ringOp { scenarioInputs with rotationMethod := RotationMethod.wave } 0 5).rotation = 0 := by
  refine ⟨?_, ?_, ?_⟩
  · rw [ringOp_rotation, calculateRotation_static_wave]
    have harg : (((i : ℝ)) / (((inp.sliceAmount : ℕ) : ℝ))) * Real.pi * 2 * 3
        = (((i : ℝ)) / (((inp.sliceAmount : ℕ) : ℝ))) * (2 * Real.pi) * 3 := by
      ring
    rw [harg]
    unfold radians
    push_cast
    ring
  · have h : (ringOp { scenarioInputs with
          rotationMethod := RotationMethod.wave } 0 0).rotation
        = radians (((10 * 1 : ℚ) : ℝ) *
            Real.sin ((((0 : ℕ) : ℝ)) / (((10 : ℕ) : ℝ)) * Real.pi * 2 * 3)) := rfl
    rw [h]
    norm_num [radians]
  · have h : (ringOp { scenarioInputs with
          rotationMethod := RotationMethod.wave } 0 5).rotation
        = radians (((10 * 1 : ℚ) : ℝ) *
            Real.sin ((((5 : ℕ) : ℝ)) / (((10 : ℕ) : ℝ)) * Real.pi * 2 * 3)) := rfl
    have h3 : (((5 : ℕ) : ℝ)) / (((10 : ℕ) : ℝ)) * Real.pi * 2 * 3
        = ((3 : ℕ) : ℝ) * Real.pi := by
      push_cast
      ring
    rw [h, h3, Real.sin_nat_mul_pi]
    norm_num [radians]

/-- C1: during a frame render, the inactive-cut branch invokes the Ring
Compositor for a slot if and only if the slot's cached raster is missing,
its stored fingerprint is missing, or the stored fingerprint differs from
the freshly computed one in at least one field; consequently, processing the
same fingerprint on two consecutive frames never invokes the compositor on
the second frame. -/
theorem inactiveSlotCompositorIffStale {ρ : Type} (st : SlotCache ρ)
    (cacheKey : Fingerprint) (render : ρ) :
    ((inactiveCutStep st cacheKey render).2 = true ↔
      st.raster = none ∨ st.fp = none ∨
        ∃ stored, st.fp = some stored ∧ fingerprintDiffers stored cacheKey) ∧
    (∀ render2 : ρ,
      (inactiveCutStep (inactiveCutStep st cacheKey render).1 cacheKey
          render2).2 = false) := by
  obtain ⟨raster, fp⟩ := st
  refine ⟨?_, ?_⟩
  · cases raster <;> cases fp <;>
      simp [inactiveCutStep, needsCacheUpdate, fingerprintDiffers_iff_ne]
    split <;> simp_all
  · intro render2
    by_cases hup :
        needsCacheUpdate (⟨raster, fp⟩ : SlotCache ρ) cacheKey = true
    · have h1 : (inactiveCutStep (⟨raster, fp⟩ : SlotCache ρ) cacheKey
            render).1 = ⟨some render, some cacheKey⟩ := by
        simp only [inactiveCutStep]
        rw [if_pos hup]
      rw [h1]
      simp [inactiveCutStep, needsCacheUpdate]
    · have h1 : (inactiveCutStep (⟨raster, fp⟩ : SlotCache ρ) cacheKey
            render).1 = ⟨raster, fp⟩ := by
        simp only [inactiveCutStep]
        rw [if_neg hup]
      rw [h1]
      simp only [inactiveCutStep]
      rw [if_neg hup]

/-- C5: for every slot index outside `[0, 6)`, `placeCutInSlot`,
`selectCutSlot` and `clearCutSlot` return `false` and leave the whole
registry state unchanged (slots, derived cuts array and selection). -/
theorem outOfRangeSlotOpsNoOp (st : CutManagerState) (slotIndex : ℤ)
    (x y : ℚ) (h : slotIndex < 0 ∨ 6 ≤ slotIndex) :
    placeCutInSlot st slotIndex x y = (false, st) ∧
    selectCutSlot st slotIndex = (false, st) ∧
    clearCutSlot st slotIndex = (false, st) := by
  have h2 : ¬(0 ≤ slotIndex ∧ slotIndex < 6) := by omega
  refine ⟨?_, ?_, ?_⟩
  · simp only [placeCutInSlot]
    rw [if_pos h]
  · simp only [selectCutSlot]
    rw [if_neg h2]
  · simp only [clearCutSlot]
    rw [if_neg h2]

/-- Witness for C5: the rejected index 6 on an empty registry. -/
theorem outOfRangeSlotOpsNoOp_witness :
    placeCutInSlot ⟨[none, none, none, none, none, none], 0, []⟩ 6 1 2
      = (false, ⟨[none, none, none, none, none, none], 0, []⟩) ∧
    selectCutSlot ⟨[none, none, none, none, none, none], 0, []⟩ 6
      = (false, ⟨[none, none, none, none, none, none], 0, []⟩) ∧
    clearCutSlot ⟨[none, none, none, none, none, none], 0, []⟩ 6
      = (false, ⟨[none, none, none, none, none, none], 0, []⟩) :=
  outOfRangeSlotOpsNoOp ⟨[none, none, none, none, none, none], 0, []⟩ 6 1 2
    (by decide)

/-- C6 counterexample: with a requested `cutSize` of exactly `0` the code
substitutes the default `300` before clamping (JavaScript `||`), so the
effective diameter is `300`, not `min(max(1, 0), min(600, 400)) = 1`;
likewise a requested `sliceAmount` of `0` yields `10` rings, not
`max(1, floor(0)) = 1`. -/
theorem effectiveSizeClaimCounterexample :
    effectiveCutSize 0 600 400 = 300 ∧
    effectiveCutSize 0 600 400 ≠ min (max 1 (0 : ℚ)) (min 600 400) ∧
    effectiveSliceAmount 0 = 10 ∧
    effectiveSliceAmount 0 ≠ max 1 ⌊(0 : ℚ)⌋ := by
  refine ⟨?_, ?_, ?_, ?_⟩ <;>
    norm_num [effectiveCutSize, effectiveSliceAmount, jsOr]

/-- C6 (amended): writing `jsOr v d` for JavaScript's `v || d` numeric
defaulting, the effective outer diameter equals
`min(max(1, jsOr(cutSize, 300)), min(zoomedW, zoomedH))` and the effective
ring count equals `max(1, floor(jsOr(sliceAmount, 10)))`; the ring count is
always at least 1, and Scenario D holds: a requested `cutSize` of 500
against a zoomed image with smaller dimension 300 clamps to 300. -/
theorem effectiveSizeClamping (requested zoomedW zoomedH : ℚ) :
    effectiveCutSize requested zoomedW zoomedH
      = min (max 1 (jsOr requested 300)) (min zoomedW zoomedH) ∧
    effectiveSliceAmount requested = max 1 ⌊jsOr requested 10⌋ ∧
    1 ≤ effectiveSliceAmount requested ∧
    effectiveCutSize 500 600 300 = 300 := by
  refine ⟨?_, rfl, le_max_left 1 _, by norm_num [effectiveCutSize, jsOr]⟩
  simp only [effectiveCutSize]
  rcases le_or_lt (max 1 (jsOr requested 300)) (min zoomedW zoomedH) with h | h
  · rw [if_neg (not_lt.mpr h), min_eq_left h]
  · rw [if_pos h, min_eq_right h.le]

/-- C8: selecting a different in-range slot sets the transition start time
to the current clock; the per-frame progress is
`clamp((now − start)/duration, 0, 1)` (equal to the code's
`min(elapsed/duration, 1)` under a monotonic clock), starting at 0 when
`now = start`, strictly below 1 before `duration` has elapsed, equal to 1
exactly once `duration` has elapsed, at which point the start time is
cleared to `null` (Settled); selecting the already-selected slot changes
neither the selection nor the transition start. -/
theorem selectionTransitionBehaviour (st : TransitionState) (j : ℤ)
    (now : ℚ) :
    (0 ≤ j → j < 6 → j ≠ st.selectedCutSlot →
      selectCutSlotTransition st j now
        = { selectedCutSlot := j, rotationTransitionStart := some now }) ∧
    selectCutSlotTransition st st.selectedCutSlot now = st ∧
    (∀ s duration later : ℚ, 0 < duration → s ≤ later →
      (computeRotationProgress (some s) later duration).1
        = max 0 (min ((later - s) / duration) 1)) ∧
    (∀ s duration : ℚ, 0 < duration →
      (computeRotationProgress (some s) s duration).1 = 0) ∧
    (∀ s duration later : ℚ, 0 < duration →
      ((computeRotationProgress (some s) later duration).1 = 1 ↔
        s + duration ≤ later)) ∧
    (∀ s duration later : ℚ, 0 < duration → s + duration ≤ later →
      (computeRotationProgress (some s) later duration).2 = none) ∧
    (∀ s duration later : ℚ, 0 < duration → later < s + duration →
      (computeRotationProgress (some s) later duration).1 < 1) := by
  refine ⟨?_, ?_, ?_, ?_, ?_, ?_, ?_⟩
  · intro h0 h6 hne
    simp only [selectCutSlotTransition]
    rw [if_pos ⟨h0, h6⟩, if_pos hne]
  · simp only [selectCutSlotTransition]
    split
    · simp
    · rfl
  · intro s duration later hd hs
    simp only [computeRotationProgress]
    have h1 : (0 : ℚ) ≤ (later - s) / duration :=
      div_nonneg (by linarith) hd.le
    rw [max_eq_right (le_min h1 (by norm_num))]
  · intro s duration hd
    simp [computeRotationProgress]
  · intro s duration later hd
    simp only [computeRotationProgress]
    rw [min_eq_right_iff, one_le_div hd]
    constructor <;> intro h <;> linarith
  · intro s duration later hd h
    have h1 : (1 : ℚ) ≤ min ((later - s) / duration) 1 :=
      le_min ((one_le_div hd).mpr (by linarith)) le_rfl
    simp only [computeRotationProgress]
    rw [if_pos h1]
  · intro s duration later hd h
    have h1 : (later - s) / duration < 1 := (div_lt_one hd).mpr (by linarith)
    simp only [computeRotationProgress]
    exact lt_of_le_of_lt (min_le_left _ _) h1

/-- Witness for C8: a concrete selection change at time 100 with a 500 ms
duration, probed mid-transition (t = 350) and after completion (t = 700). -/
theorem selectionTransitionBehaviour_witness :
    selectCutSlotTransition ⟨0, none⟩ 1 100
      = { selectedCutSlot := 1, rotationTransitionStart := some 100 } ∧
    selectCutSlotTransition ⟨0, none⟩ 0 100 = ⟨0, none⟩ ∧
    (computeRotationProgress (some 100) 350 500).1
      = max 0 (min (((350 : ℚ) - 100) / 500) 1) ∧
    (computeRotationProgress (some 100) 100 500).1 = 0 ∧
    ((computeRotationProgress (some 100) 700 500).1 = 1 ↔
      (100 : ℚ) + 500 ≤ 700) ∧
    (computeRotationProgress (some 100) 700 500).2 = none ∧
    (computeRotationProgress (some 100) 350 500).1 < 1 := by
  have h := selectionTransitionBehaviour ⟨0, none⟩ 1 100
  exact ⟨h.1 (by decide) (by decide) (by decide),
    (selectionTransitionBehaviour ⟨0, none⟩ 0 100).2.1,
    h.2.2.1 100 500 350 (by decide) (by decide),
    h.2.2.2.1 100 500 (by decide),
    h.2.2.2.2.1 100 500 700 (by decide),
    h.2.2.2.2.2.1 100 500 700 (by decide) (by norm_num),
    h.2.2.2.2.2.2 100 500 350 (by decide) (by norm_num)⟩

end Cinetiser
